import Mathlib

/-
Verification of the LSM303 magnetometer driver (src/src/magnetometer.rs).

The driver is shallowly embedded: the injected I2C transport becomes an
explicit `Dev` state (a register file, scripted block-read responses,
fault-injection flags, and a log of byte writes), and each fallible
operation returns `Except ErrorKind`.  Machine bytes are `Nat` with `% 256`
at the transport boundary, and signed 16-bit decoding is made explicit on
`Int`.

The `registers` module and the `errors` crate of the repository are not
among the provided sources; their constants and the `read_register!` /
`write_register!` macros are modelled from the specification (see the
doc comments marked "Modelled from the spec").
-/

namespace Lsm303

/-- Error kinds of the driver, following the spec's error-handling design:
device-open failure, propagated transport failure, the explicit
insufficient-data failure of the field-read path, and the cursor
end-of-data failure produced by `byteorder` when a `Cursor` holds fewer
bytes than a 16-bit read needs. -/
inductive ErrorKind where
  | failedToOpenDevice
  | transport
  | notEnoughData
  | cursorEndOfData
deriving DecidableEq, Repr

/-- The seven allowed gain settings, from the `Gain` enum of
src/src/magnetometer.rs. -/
inductive Gain where
  | Gain_1_3
  | Gain_1_9
  | Gain_2_5
  | Gain_4_0
  | Gain_4_7
  | Gain_5_6
  | Gain_8_1
deriving DecidableEq, Repr

/-- Modelled from the spec: the `registers` module is not among the provided
sources.  Address of control register A (datasheet CRA_REG_M). -/
def CRA_REG_M : Nat := 0x00

/-- Modelled from the spec: address of control register B (datasheet
CRB_REG_M), holding the gain selector bits. -/
def CRB_REG_M : Nat := 0x01

/-- Modelled from the spec: address of the mode register (datasheet
MR_REG_M), selecting continuous mode when zero. -/
def MR_REG_M : Nat := 0x02

/-- Modelled from the spec: address of the X-axis high output byte; the
6-byte axis block starts here. -/
def OUT_X_H_M : Nat := 0x03

/-- Modelled from the spec: address of the temperature high output byte;
the 2-byte temperature block starts here. -/
def TEMP_OUT_H_M : Nat := 0x31

/-- Modelled from the spec: temperature-enable flag of control register A
(bit 7). -/
def TEMP_EN : Nat := 0x80

/-- Modelled from the spec: the output-data-rate flag of control register A
selecting the 15 Hz setting (bit 4, DO bits = 100). -/
def DO2 : Nat := 0x10

/-- Modelled from the spec: gain selector bit GN2 of control register B
(bit 7). -/
def GN2 : Nat := 0x80

/-- Modelled from the spec: gain selector bit GN1 of control register B
(bit 6). -/
def GN1 : Nat := 0x40

/-- Modelled from the spec: gain selector bit GN0 of control register B
(bit 5). -/
def GN0 : Nat := 0x20

/-- Modelled from the spec: `MrRegM::empty()`, the all-flags-clear value of
the mode register that selects continuous-conversion mode. -/
def MrRegM_empty : Nat := 0x00

/-- The injected I2C transport, made explicit: a byte register file,
a scripted block-read response (the transport may answer with fewer bytes
than requested), fault-injection flags per register, and a log of the
byte writes issued so far. -/
structure Dev where
  regs : Nat → Nat
  blockData : Nat → Nat → List Nat
  failRead : Nat → Bool
  failBlockRead : Nat → Bool
  failWrite : Nat → Bool
  writeLog : List (Nat × Nat)

/-- Modelled from the spec: the `write_register!` macro.  A fallible
single-byte register write; on success it updates the register file and
appends the write to the log. -/
def write_register (d : Dev) (reg val : Nat) : Except ErrorKind Dev :=
  if d.failWrite reg then .error .transport
  else .ok { d with
              regs := fun r => if r = reg then val % 256 else d.regs r,
              writeLog := d.writeLog ++ [(reg, val % 256)] }

/-- Modelled from the spec: the `read_register!` macro.  A fallible
single-byte register read, returning the byte currently in the register
file. -/
def read_register (d : Dev) (reg : Nat) : Except ErrorKind Nat :=
  if d.failRead reg then .error .transport
  else .ok (d.regs reg % 256)

/-- The transport's fallible block read
(`smbus_read_i2c_block_data(reg, len)`): the scripted response, each byte
truncated to 8 bits.  The response may be shorter than `len`; the caller
must check. -/
def smbus_read_i2c_block_data (d : Dev) (reg : Nat) (_len : Nat) :
    Except ErrorKind (List Nat) :=
  if d.failBlockRead reg then .error .transport
  else .ok ((d.blockData reg _len).map (· % 256))

/-- Reinterpret an unsigned value as a signed 16-bit integer
(two's complement). -/
def toI16 (u : Nat) : Int :=
  if u % 65536 < 32768 then ((u % 65536 : Nat) : Int)
  else ((u % 65536 : Nat) : Int) - 65536

/-- One `cursor.read_i16::<BigEndian>()` step of the `byteorder` crate:
consume two bytes big-endian, or fail when fewer than two bytes remain. -/
def cursorReadI16BE : List Nat → Except ErrorKind (Int × List Nat)
  | hi :: lo :: rest => .ok (toI16 ((hi % 256) * 256 + lo % 256), rest)
  | _ => .error .cursorEndOfData

/-- `flags.remove(mask)` of the bitflags crate on an 8-bit register. -/
def flagsRemove (f mask : Nat) : Nat := f &&& (255 ^^^ mask)

/-- `flags.insert(mask)` of the bitflags crate. -/
def flagsInsert (f mask : Nat) : Nat := f ||| mask

/-- The driver state: the owned transport and the recorded gain
(`struct Magnetometer`). -/
structure Magnetometer where
  device : Dev
  gain : Gain

/-- The I2C address of the magnetometer: `const I2C_ADDRESS: u16 = 0x3C >> 1`. -/
def I2C_ADDRESS : Nat := 0x3C >>> 1

/-- `Magnetometer::from_i2c_device`: write the mode register to
continuous-conversion mode, write control register A with the
temperature-enable and 15 Hz data-rate flags, and record the default gain. -/
def from_i2c_device (device : Dev) : Except ErrorKind Magnetometer :=
  match write_register device MR_REG_M MrRegM_empty with
  | .error e => .error e
  | .ok device =>
    match write_register device CRA_REG_M (TEMP_EN ||| DO2) with
    | .error e => .error e
    | .ok device =>
      let gain := Gain.Gain_1_3
      .ok { device := device, gain := gain }

/-- `Magnetometer::new`: open the platform I2C device at `I2C_ADDRESS`
(mapping an open failure to the distinct device-open error kind), then run
`from_i2c_device`.  The platform opener is external and passed as a
function of the bus address. -/
def new (openDev : Nat → Except Unit Dev) : Except ErrorKind Magnetometer :=
  match openDev I2C_ADDRESS with
  | .error _ => .error .failedToOpenDevice
  | .ok device => from_i2c_device device

/-- `Magnetometer::read_magnetic_field`: block-read 6 bytes from
`OUT_X_H_M`, fail with `NotEnoughData` when fewer arrive, then decode
three big-endian signed 16-bit values in wire order X, Z, Y and return
them as (x, y, z). -/
def read_magnetic_field (m : Magnetometer) :
    Except ErrorKind (Int × Int × Int) :=
  match smbus_read_i2c_block_data m.device OUT_X_H_M 6 with
  | .error e => .error e
  | .ok data =>
    if data.length < 6 then
      .error .notEnoughData
    else
      match cursorReadI16BE data with
      | .error e => .error e
      | .ok (x, rest) =>
        match cursorReadI16BE rest with
        | .error e => .error e
        | .ok (z, rest) =>
          match cursorReadI16BE rest with
          | .error e => .error e
          | .ok (y, _) => .ok (x, y, z)

/-- The exhaustive enum-to-bitmask table inside `set_gain`, one entry per
`Gain` variant. -/
def gainSetting : Gain → Nat
  | .Gain_1_3 => GN0
  | .Gain_1_9 => GN1
  | .Gain_2_5 => GN1 ||| GN0
  | .Gain_4_0 => GN2
  | .Gain_4_7 => GN2 ||| GN0
  | .Gain_5_6 => GN2 ||| GN1
  | .Gain_8_1 => GN2 ||| GN1 ||| GN0

/-- `Magnetometer::set_gain`: read control register B, clear the three
gain selector bits, insert the new gain's pattern, write the result back,
and only then record the new gain.  The driver state is threaded
explicitly so that a failing call leaves it untouched. -/
def set_gain (m : Magnetometer) (gain : Gain) :
    Magnetometer × Except ErrorKind Unit :=
  match read_register m.device CRB_REG_M with
  | .error e => (m, .error e)
  | .ok flags =>
    let flags := flagsRemove flags (GN2 ||| GN1 ||| GN0)
    let setting := gainSetting gain
    let flags := flagsInsert flags setting
    match write_register m.device CRB_REG_M flags with
    | .error e => (m, .error e)
    | .ok device => ({ device := device, gain := gain }, .ok ())

/-- `Magnetometer::read_temperature`: block-read 2 bytes from
`TEMP_OUT_H_M`, decode one big-endian signed 16-bit value through the
cursor (no explicit length check on this path), and divide by 16 with
Rust's truncating signed division. -/
def read_temperature (m : Magnetometer) : Except ErrorKind Int :=
  match smbus_read_i2c_block_data m.device TEMP_OUT_H_M 2 with
  | .error e => .error e
  | .ok data =>
    match cursorReadI16BE data with
    | .error e => .error e
    | .ok (temp, _) => .ok (Int.tdiv temp 16)

/-- The position of each `Gain` variant in the enum's own ordering
(the enum discriminant). -/
def gainIndex : Gain → Nat
  | .Gain_1_3 => 0
  | .Gain_1_9 => 1
  | .Gain_2_5 => 2
  | .Gain_4_0 => 3
  | .Gain_4_7 => 4
  | .Gain_5_6 => 5
  | .Gain_8_1 => 6

/-- A fault-free transport with all registers zero and empty block
responses, used to instantiate universally quantified theorems. -/
def devOk : Dev :=
  { regs := fun _ => 0
  , blockData := fun _ _ => []
  , failRead := fun _ => false
  , failBlockRead := fun _ => false
  , failWrite := fun _ => false
  , writeLog := [] }

/-- A transport scripted to answer the axis block read with the spec's
example bytes 00 0A 00 14 00 1E. -/
def devFieldExample : Dev :=
  { devOk with blockData := fun r _ =>
      if r = OUT_X_H_M then [0x00, 0x0A, 0x00, 0x14, 0x00, 0x1E] else [] }

/-- A transport that answers every block read with only 3 bytes. -/
def devShortBlock : Dev :=
  { devOk with blockData := fun _ _ => [1, 2, 3] }

/-- A transport scripted to answer the temperature block read with the
given bytes. -/
def devTempBytes (bs : List Nat) : Dev :=
  { devOk with blockData := fun r _ => if r = TEMP_OUT_H_M then bs else [] }

/-- A transport whose registers all hold 0xFF. -/
def devAllFF : Dev := { devOk with regs := fun _ => 0xFF }

/-- A transport on which every register read and write fails. -/
def devFailAll : Dev :=
  { devOk with failRead := fun _ => true, failWrite := fun _ => true }

/-- A platform opener that fails for every address. -/
def openerFail : Nat → Except Unit Dev := fun _ => .error ()

/-- A platform opener that fails exactly at address 0x1E. -/
def openerPick : Nat → Except Unit Dev :=
  fun a => if a = 0x1E then .error () else .ok devOk

set_option maxRecDepth 4096 in
/-- For any byte, clearing the three gain selector bits and inserting one
of the seven gain patterns yields a byte, keeps exactly that pattern in
the selector positions, and leaves the remaining bit positions unchanged. -/
theorem gainBits_ball (g : Gain) : ∀ b : Nat, b < 256 →
    flagsInsert (flagsRemove b (GN2 ||| GN1 ||| GN0)) (gainSetting g) < 256 ∧
    (flagsInsert (flagsRemove b (GN2 ||| GN1 ||| GN0)) (gainSetting g)) &&&
      (GN2 ||| GN1 ||| GN0) = gainSetting g ∧
    (flagsInsert (flagsRemove b (GN2 ||| GN1 ||| GN0)) (gainSetting g)) &&&
      (255 ^^^ (GN2 ||| GN1 ||| GN0)) = b &&& (255 ^^^ (GN2 ||| GN1 ||| GN0)) := by
  cases g <;> decide

/-- Two's-complement reinterpretation of a big-endian byte pair, written
without the modulus that `toI16` carries. -/
theorem toI16_eq (hi lo : Nat) (hh : hi < 256) (hl : lo < 256) :
    toI16 (hi * 256 + lo) =
      if hi * 256 + lo < 32768 then (hi * 256 + lo : Int)
      else (hi * 256 + lo : Int) - 65536 := by
  have h : hi * 256 + lo < 65536 := by omega
  unfold toI16
  rw [Nat.mod_eq_of_lt h]
  split <;> push_cast <;> ring

/-- Claim C1: for every 6-byte transport response, `read_magnetic_field`
decodes the bytes as three big-endian signed 16-bit values in wire order
X, Z, Y and returns them reordered as the tuple (x, y, z). -/
theorem spec_C1_field_decode_wire_order (d : Dev) (g : Gain)
    (b0 b1 b2 b3 b4 b5 : Nat)
    (hf : d.failBlockRead OUT_X_H_M = false)
    (hd : d.blockData OUT_X_H_M 6 = [b0, b1, b2, b3, b4, b5])
    (h0 : b0 < 256) (h1 : b1 < 256) (h2 : b2 < 256)
    (h3 : b3 < 256) (h4 : b4 < 256) (h5 : b5 < 256) :
    read_magnetic_field { device := d, gain := g } =
      .ok ((if b0 * 256 + b1 < 32768 then (b0 * 256 + b1 : Int)
            else (b0 * 256 + b1 : Int) - 65536),
           (if b4 * 256 + b5 < 32768 then (b4 * 256 + b5 : Int)
            else (b4 * 256 + b5 : Int) - 65536),
           (if b2 * 256 + b3 < 32768 then (b2 * 256 + b3 : Int)
            else (b2 * 256 + b3 : Int) - 65536)) := by
  simp [read_magnetic_field, smbus_read_i2c_block_data, hf, hd, cursorReadI16BE,
        Nat.mod_eq_of_lt, h0, h1, h2, h3, h4, h5,
        toI16_eq b0 b1 h0 h1, toI16_eq b2 b3 h2 h3, toI16_eq b4 b5 h4 h5]

/-- Claim C1 witness: the spec's concrete bytes 00 0A 00 14 00 1E decode
to (x=10, y=30, z=20). -/
theorem spec_C1_field_decode_wire_order_witness :
    read_magnetic_field { device := devFieldExample, gain := .Gain_1_3 } =
      .ok (10, 30, 20) :=
  (spec_C1_field_decode_wire_order devFieldExample .Gain_1_3 0 10 0 20 0 30 rfl
    (by decide) (by decide) (by decide) (by decide) (by decide) (by decide)
    (by decide)).trans (congrArg Except.ok (by decide))

/-- Claim C2: for every transport response shorter than 6 bytes,
`read_magnetic_field` fails with the distinct insufficient-data error kind
and performs no decoding of the partial bytes (the result is the same
whatever those bytes hold). -/
theorem spec_C2_field_short_read (d : Dev) (g : Gain)
    (hf : d.failBlockRead OUT_X_H_M = false)
    (hlen : (d.blockData OUT_X_H_M 6).length < 6) :
    read_magnetic_field { device := d, gain := g } = .error .notEnoughData := by
  simp [read_magnetic_field, smbus_read_i2c_block_data, hf, hlen]

/-- Claim C2 witness: a 3-byte response yields `NotEnoughData`. -/
theorem spec_C2_field_short_read_witness :
    read_magnetic_field { device := devShortBlock, gain := .Gain_1_3 } =
      .error .notEnoughData :=
  spec_C2_field_short_read devShortBlock .Gain_1_3 rfl (by decide)

/-- Claim C3: for every 2-byte transport response, `read_temperature`
interprets the bytes as one big-endian signed 16-bit value and returns
that value divided by 16 with sign-respecting division truncating toward
zero (`Int.tdiv`). -/
theorem spec_C3_temperature_decode (d : Dev) (g : Gain) (hi lo : Nat)
    (hf : d.failBlockRead TEMP_OUT_H_M = false)
    (hd : d.blockData TEMP_OUT_H_M 2 = [hi, lo])
    (hh : hi < 256) (hl : lo < 256) :
    read_temperature { device := d, gain := g } =
      .ok (Int.tdiv
        (if hi * 256 + lo < 32768 then (hi * 256 + lo : Int)
         else (hi * 256 + lo : Int) - 65536) 16) := by
  simp [read_temperature, smbus_read_i2c_block_data, hf, hd, cursorReadI16BE,
        Nat.mod_eq_of_lt, hh, hl, toI16_eq hi lo hh hl]

/-- Claim C3 witness: bytes 00 20 yield 2, bytes FF F0 yield -1, and the
non-exact case FF F8 truncates toward zero to 0 (floor would give -1). -/
theorem spec_C3_temperature_decode_witness :
    read_temperature { device := devTempBytes [0x00, 0x20], gain := .Gain_1_3 } =
        .ok 2 ∧
    read_temperature { device := devTempBytes [0xFF, 0xF0], gain := .Gain_1_3 } =
        .ok (-1) ∧
    read_temperature { device := devTempBytes [0xFF, 0xF8], gain := .Gain_1_3 } =
        .ok 0 :=
  ⟨(spec_C3_temperature_decode (devTempBytes [0x00, 0x20]) .Gain_1_3 0x00 0x20 rfl
      (by decide) (by decide) (by decide)).trans (congrArg Except.ok (by decide)),
   (spec_C3_temperature_decode (devTempBytes [0xFF, 0xF0]) .Gain_1_3 0xFF 0xF0 rfl
      (by decide) (by decide) (by decide)).trans (congrArg Except.ok (by decide)),
   (spec_C3_temperature_decode (devTempBytes [0xFF, 0xF8]) .Gain_1_3 0xFF 0xF8 rfl
      (by decide) (by decide) (by decide)).trans (congrArg Except.ok (by decide))⟩

/-- Claim C4: for every Gain variant and every prior byte value of control
register B, a successful `set_gain` writes back a byte whose three
gain-selector bit positions contain exactly the documented pattern for the
new gain and whose non-selector bits equal those of the value just read. -/
theorem spec_C4_set_gain_bit_pattern (m : Magnetometer) (g : Gain)
    (hr : m.device.failRead CRB_REG_M = false)
    (hw : m.device.failWrite CRB_REG_M = false) :
    ∃ m' v, set_gain m g = (m', .ok ()) ∧
      m'.device.writeLog = m.device.writeLog ++ [(CRB_REG_M, v)] ∧
      v &&& (GN2 ||| GN1 ||| GN0) = gainSetting g ∧
      v &&& (255 ^^^ (GN2 ||| GN1 ||| GN0)) =
        (m.device.regs CRB_REG_M % 256) &&& (255 ^^^ (GN2 ||| GN1 ||| GN0)) := by
  have hb : m.device.regs CRB_REG_M % 256 < 256 := Nat.mod_lt _ (by omega)
  obtain ⟨hlt, hsel, hrest⟩ := gainBits_ball g _ hb
  refine ⟨(set_gain m g).1,
    flagsInsert (flagsRemove (m.device.regs CRB_REG_M % 256) (GN2 ||| GN1 ||| GN0))
      (gainSetting g), ?_, ?_, hsel, hrest⟩
  · simp [set_gain, read_register, write_register, hr, hw]
  · simp [set_gain, read_register, write_register, hr, hw, Nat.mod_eq_of_lt hlt]

/-- Claim C4 witness: with all prior bits set (0xFF) and gain ±4.0, the
gain bits become exactly GN2 and the low bits stay set. -/
theorem spec_C4_set_gain_bit_pattern_witness :
    ∃ m' v,
      set_gain { device := devAllFF, gain := .Gain_1_3 } .Gain_4_0 = (m', .ok ()) ∧
      m'.device.writeLog = devAllFF.writeLog ++ [(CRB_REG_M, v)] ∧
      v &&& (GN2 ||| GN1 ||| GN0) = gainSetting .Gain_4_0 ∧
      v &&& (255 ^^^ (GN2 ||| GN1 ||| GN0)) =
        (devAllFF.regs CRB_REG_M % 256) &&& (255 ^^^ (GN2 ||| GN1 ||| GN0)) :=
  spec_C4_set_gain_bit_pattern { device := devAllFF, gain := .Gain_1_3 } .Gain_4_0
    rfl rfl

/-- Claim C5: if the control-register-B read or the subsequent write fails,
`set_gain` returns an error and leaves the driver state — in particular the
recorded gain — unchanged; the recorded gain becomes the new value only
when the call succeeds. -/
theorem spec_C5_set_gain_failure_state (m : Magnetometer) (g : Gain) :
    (m.device.failRead CRB_REG_M = true ∨ m.device.failWrite CRB_REG_M = true →
      set_gain m g = (m, .error .transport)) ∧
    (∀ m', set_gain m g = (m', .ok ()) → m'.gain = g) := by
  constructor
  · rintro (h | h)
    · simp [set_gain, read_register, h]
    · cases hr : m.device.failRead CRB_REG_M <;>
        simp [set_gain, read_register, write_register, h, hr]
  · intro m' hok
    unfold set_gain read_register write_register at hok
    cases hr : m.device.failRead CRB_REG_M <;> rw [hr] at hok <;> simp at hok
    cases hw : m.device.failWrite CRB_REG_M <;> rw [hw] at hok <;> simp at hok
    rw [← hok]

/-- Claim C5 witness: an injected write failure leaves the driver state,
gain included, exactly as it was. -/
theorem spec_C5_set_gain_failure_state_witness :
    set_gain { device := devFailAll, gain := .Gain_1_3 } .Gain_8_1 =
      ({ device := devFailAll, gain := .Gain_1_3 }, .error .transport) :=
  (spec_C5_set_gain_failure_state { device := devFailAll, gain := .Gain_1_3 }
    .Gain_8_1).1 (Or.inl rfl)

/-- Claim C6: successful construction issues exactly two register writes —
the mode register with the all-flags-clear value, then control register A
with the temperature-enable and 15 Hz data-rate flags — never touches the
gain register (both written addresses differ from CRB_REG_M), and records
the default gain ±1.3. -/
theorem spec_C6_construction_writes (d : Dev)
    (h1 : d.failWrite MR_REG_M = false) (h2 : d.failWrite CRA_REG_M = false) :
    ∃ m, from_i2c_device d = .ok m ∧
      m.gain = .Gain_1_3 ∧
      m.device.writeLog =
        d.writeLog ++ [(MR_REG_M, MrRegM_empty), (CRA_REG_M, TEMP_EN ||| DO2)] ∧
      MR_REG_M ≠ CRB_REG_M ∧ CRA_REG_M ≠ CRB_REG_M := by
  have hstep : from_i2c_device d = .ok
      { device :=
          { d with
            regs := fun r =>
              if r = CRA_REG_M then (TEMP_EN ||| DO2) % 256
              else if r = MR_REG_M then MrRegM_empty % 256 else d.regs r,
            writeLog := d.writeLog ++
              [(MR_REG_M, MrRegM_empty % 256), (CRA_REG_M, (TEMP_EN ||| DO2) % 256)] },
        gain := Gain.Gain_1_3 } := by
    simp [from_i2c_device, write_register, h1, h2]
  refine ⟨_, hstep, rfl, ?_, by decide, by decide⟩
  simp [show MrRegM_empty % 256 = MrRegM_empty from by decide,
        show (TEMP_EN ||| DO2) % 256 = TEMP_EN ||| DO2 from by decide]

/-- Claim C6 witness: construction on a fault-free transport logs exactly
the two documented writes and records gain ±1.3. -/
theorem spec_C6_construction_writes_witness :
    ∃ m, from_i2c_device devOk = .ok m ∧
      m.gain = .Gain_1_3 ∧
      m.device.writeLog =
        devOk.writeLog ++ [(MR_REG_M, MrRegM_empty), (CRA_REG_M, TEMP_EN ||| DO2)] ∧
      MR_REG_M ≠ CRB_REG_M ∧ CRA_REG_M ≠ CRB_REG_M :=
  spec_C6_construction_writes devOk rfl rfl

/-- Claim C7: if either register write of the initialization sequence
fails, `from_i2c_device` returns an error and no driver value is
produced. -/
theorem spec_C7_construction_all_or_nothing (d : Dev)
    (h : d.failWrite MR_REG_M = true ∨ d.failWrite CRA_REG_M = true) :
    ∃ e, from_i2c_device d = .error e := by
  rcases h with h | h
  · exact ⟨.transport, by simp [from_i2c_device, write_register, h]⟩
  · cases hm : d.failWrite MR_REG_M
    · exact ⟨.transport, by simp [from_i2c_device, write_register, h, hm]⟩
    · exact ⟨.transport, by simp [from_i2c_device, write_register, hm]⟩

/-- Claim C7 witness: construction on an all-failing transport returns an
error. -/
theorem spec_C7_construction_all_or_nothing_witness :
    ∃ e, from_i2c_device devFailAll = .error e :=
  spec_C7_construction_all_or_nothing devFailAll (Or.inl rfl)

/-- Claim C8 counterexample: the table's masks ARE an arithmetic encoding
of the enum index — for every one of the seven variants the mask equals
32 * (index + 1), i.e. (index + 1) shifted into the top three bits —
refuting the claim's "rather than being an arithmetic encoding of the enum
index". -/
theorem spec_C8_gain_table_cex :
    gainSetting .Gain_1_3 = 32 * (gainIndex .Gain_1_3 + 1) ∧
    gainSetting .Gain_1_9 = 32 * (gainIndex .Gain_1_9 + 1) ∧
    gainSetting .Gain_2_5 = 32 * (gainIndex .Gain_2_5 + 1) ∧
    gainSetting .Gain_4_0 = 32 * (gainIndex .Gain_4_0 + 1) ∧
    gainSetting .Gain_4_7 = 32 * (gainIndex .Gain_4_7 + 1) ∧
    gainSetting .Gain_5_6 = 32 * (gainIndex .Gain_5_6 + 1) ∧
    gainSetting .Gain_8_1 = 32 * (gainIndex .Gain_8_1 + 1) := by decide

/-- Claim C8 (amended): the enum-to-bitmask table of `set_gain` is a total
function over the seven Gain variants assigning pairwise-distinct
combinations of the three selector bits, matching the documented mapping
entry by entry; the masks are not the raw enum indices themselves (though
they do follow the arithmetic pattern 32 * (index + 1)). -/
theorem spec_C8_gain_table (g₁ g₂ : Gain) (hne : g₁ ≠ g₂) :
    gainSetting g₁ ≠ gainSetting g₂ ∧
    gainSetting .Gain_1_3 = GN0 ∧
    gainSetting .Gain_1_9 = GN1 ∧
    gainSetting .Gain_2_5 = (GN1 ||| GN0) ∧
    gainSetting .Gain_4_0 = GN2 ∧
    gainSetting .Gain_4_7 = (GN2 ||| GN0) ∧
    gainSetting .Gain_5_6 = (GN2 ||| GN1) ∧
    gainSetting .Gain_8_1 = (GN2 ||| GN1 ||| GN0) ∧
    gainSetting g₁ ≠ gainIndex g₁ := by
  refine ⟨?_, by decide, by decide, by decide, by decide, by decide, by decide,
    by decide, ?_⟩
  · cases g₁ <;> cases g₂ <;> first | (exact absurd rfl hne) | decide
  · cases g₁ <;> decide

/-- Claim C8 witness: two distinct variants receive distinct masks, and
the first variant's mask differs from its index. -/
theorem spec_C8_gain_table_witness :
    gainSetting .Gain_1_3 ≠ gainSetting .Gain_8_1 ∧
    gainSetting .Gain_1_3 ≠ gainIndex .Gain_1_3 :=
  ⟨(spec_C8_gain_table .Gain_1_3 .Gain_8_1 (by decide)).1,
   (spec_C8_gain_table .Gain_1_3 .Gain_8_1 (by decide)).2.2.2.2.2.2.2.2⟩

/-- Claim C9: the driver's fixed bus address is 0x1E, equal to the
datasheet's 8-bit write address 0x3C shifted right by one, and `new`
consults the platform opener only at that address: two openers agreeing at
0x1E make `new` agree. -/
theorem spec_C9_i2c_address (f₁ f₂ : Nat → Except Unit Dev)
    (h : f₁ 0x1E = f₂ 0x1E) :
    I2C_ADDRESS = 0x1E ∧ I2C_ADDRESS = 0x3C >>> 1 ∧ new f₁ = new f₂ := by
  refine ⟨by decide, by decide, ?_⟩
  unfold new
  rw [show I2C_ADDRESS = 0x1E from rfl, h]

/-- Claim C9 witness: an opener failing everywhere and an opener failing
exactly at 0x1E are indistinguishable to `new`. -/
theorem spec_C9_i2c_address_witness :
    I2C_ADDRESS = 0x1E ∧ I2C_ADDRESS = 0x3C >>> 1 ∧
      new openerFail = new openerPick :=
  spec_C9_i2c_address openerFail openerPick rfl

/-- Claim C10: if the transport returns fewer than 2 bytes to
`read_temperature`, the call fails with the error propagated from the
failed 16-bit cursor read — an error kind distinct from the
insufficient-data kind of the field path, there being no explicit length
check on the temperature path. -/
theorem spec_C10_temperature_short_read (m : Magnetometer)
    (hf : m.device.failBlockRead TEMP_OUT_H_M = false)
    (hlen : (m.device.blockData TEMP_OUT_H_M 2).length < 2) :
    read_temperature m = .error .cursorEndOfData ∧
      ErrorKind.cursorEndOfData ≠ ErrorKind.notEnoughData := by
  refine ⟨?_, by decide⟩
  match hbs : m.device.blockData TEMP_OUT_H_M 2 with
  | [] => simp [read_temperature, smbus_read_i2c_block_data, hf, hbs, cursorReadI16BE]
  | [a] => simp [read_temperature, smbus_read_i2c_block_data, hf, hbs, cursorReadI16BE]
  | a :: b :: t => rw [hbs] at hlen; exact absurd hlen (by simp)

/-- Claim C10 witness: a 1-byte temperature response yields the cursor
end-of-data error, which differs from `NotEnoughData`. -/
theorem spec_C10_temperature_short_read_witness :
    read_temperature { device := devTempBytes [0xFF], gain := .Gain_1_3 } =
        .error .cursorEndOfData ∧
      ErrorKind.cursorEndOfData ≠ ErrorKind.notEnoughData :=
  spec_C10_temperature_short_read
    { device := devTempBytes [0xFF], gain := .Gain_1_3 } rfl (by decide)

end Lsm303
